import Mathlib

/-!
Verification of the timeseries validation module of `ixmp_server_workflow`
(`timeseries.py`).

The module validates an in-memory tabular dataset (rows with `model`,
`scenario`, `region`, `variable`, `unit` columns) against configuration
structures, reporting problems through a logging channel and returning a
boolean pass/fail.  The embedding below models:

* a dataset as a `List Row`;
* the parsed variable configuration (a Python dict) as an association list
  `List (String × VariableSpec)`;
* the logging channel as an explicitly returned `List LogLine`, each line
  carrying its level and the formatted message text;
* the filesystem seen by `get_region_mapping` as a function from a path to
  `Option` of a directory listing: `none` models a path that is not an
  existing directory, `some files` the listing, each entry a filename
  together with the parsed content of the file (a well-formed region
  mapping document as described by the module: optional `model` field as
  read by `.get`, and the key sets of `native_regions` and
  `region_aggregation`);
* pandas `unique()` as `List.dedup` and Python set difference as a filter
  (the source's set iteration order is unspecified; the claims under
  verification only inspect membership in the log, never bullet order);
* the slice limit of `log_validation_errors` as a `Nat`, matching its use
  as a non-negative count at every call site (default `100`).
-/

/-- Severity levels used by the module's logging calls. -/
inductive Level where
  | debug
  | warning
  | error
deriving DecidableEq

/-- One emitted log line: its level and its fully formatted text. -/
structure LogLine where
  level : Level
  text : String
deriving DecidableEq

/-- One row of the timeseries dataframe (only the inspected columns). -/
structure Row where
  model : String
  scenario : String
  region : String
  «variable» : String
  unit : String
deriving DecidableEq

/-- The value attached to one variable in the variable configuration:
its configured `unit`, and `required` as read by `.get('required', False)`. -/
structure VariableSpec where
  unit : String
  required : Bool
deriving DecidableEq

/-- The parsed content of one region mapping file: the `model` field as
read by `.get('model')`, and the keys of `native_regions` and
`region_aggregation`. -/
structure RegionMapping where
  model : Option String
  native_regions : List String
  region_aggregation : List String
deriving DecidableEq

/-- `log_validation_errors(message, errors, level, limit)`: the heading
`f'{message}:'`, one bulleted line per error in `errors[:limit]`, and a
final `and N more...` line when errors were truncated. -/
def log_validation_errors (message : String) (errors : List String)
    (level : Level) (limit : Nat) : List LogLine :=
  LogLine.mk level (message ++ ":") ::
    (errors.take limit).map (fun e => LogLine.mk level ("- " ++ e)) ++
    (if errors.length > limit then
      [LogLine.mk level ("and " ++ toString (errors.length - limit) ++ " more...")]
    else [])

/-- `set(df.variable.unique()) - set(variable_config.keys())`. -/
def unknown_variables (df : List Row)
    (variable_config : List (String × VariableSpec)) : List String :=
  ((df.map Row.«variable»).dedup).filter
    (fun v => decide (v ∉ variable_config.map Prod.fst))

/-- Distinct units of the rows with variable `p.1` and a unit different
from the configured unit `p.2.unit`
(`df[(df.variable == variable) & (df.unit != unit)].unit.unique()`). -/
def mismatchedUnits (df : List Row) (p : String × VariableSpec) : List String :=
  ((df.filter (fun r => r.«variable» == p.1 && r.unit != p.2.unit)).map Row.unit).dedup

/-- The accumulator built by the unit-check loop of
`validate_variables_and_units`: one formatted string
`f'{variable}: {", ".join(unknown_units)}'` per configured variable with
at least one mismatched unit, in configuration order. -/
def unknown_variable_units (df : List Row)
    (variable_config : List (String × VariableSpec)) : List String :=
  (variable_config.filter (fun p => !(mismatchedUnits df p).isEmpty)).map
    (fun p => p.1 ++ ": " ++ String.intercalate ", " (mismatchedUnits df p))

/-- `validate_variables_and_units(df, variable_config)`: returns the
boolean result together with the emitted log lines.  The result is valid
exactly when both the unknown-variable check and the unit check found
nothing; each non-empty finding is reported as one batch through
`log_validation_errors` (note the call site's message for the unit batch
already carries a trailing colon). -/
def validate_variables_and_units (df : List Row)
    (variable_config : List (String × VariableSpec)) : Bool × List LogLine :=
  let uv := unknown_variables df variable_config
  let uvu := unknown_variable_units df variable_config
  (uv.isEmpty && uvu.isEmpty,
   LogLine.mk Level.debug "Start variables/units validation" ::
     (if uv.length > 0 then
       log_validation_errors "Unknown variable(s)" uv Level.warning 100
     else []) ++
     (if uvu.length > 0 then
       log_validation_errors "Unknown unit(s) for variable(s):" uvu Level.warning 100
     else []) ++
     [LogLine.mk Level.debug "Finish variables/units validation"])

/-- `set(df.model.unique())` as a list. -/
def modelsOf (df : List Row) : List String :=
  (df.map Row.model).dedup

/-- `set(df.scenario.unique())` as a list. -/
def scenariosOf (df : List Row) : List String :=
  (df.map Row.scenario).dedup

/-- `models - set(variable_df.model.unique())` for `variable_df` the rows
carrying the variable `p.1`: the models with no row for that variable. -/
def missing_models (df : List Row) (p : String × VariableSpec) : List String :=
  (modelsOf df).filter
    (fun m => decide (m ∉ (df.filter (fun r => r.«variable» == p.1)).map Row.model))

/-- `scenarios - set(variable_df.scenario.unique())`: the scenarios with
no row for the variable `p.1`. -/
def missing_scenarios (df : List Row) (p : String × VariableSpec) : List String :=
  (scenariosOf df).filter
    (fun s => decide (s ∉ (df.filter (fun r => r.«variable» == p.1)).map Row.scenario))

/-- The warning lines the required-variable loop emits for one configured
variable: nothing when it is not required, otherwise one combined warning
per non-empty missing set. -/
def requiredVariableLog (df : List Row) (p : String × VariableSpec) : List LogLine :=
  if p.2.required then
    (if (missing_models df p).length > 0 then
      [LogLine.mk Level.warning
        ("Following models miss required variable " ++ p.1 ++ ": " ++
          String.intercalate ", " (missing_models df p))]
    else []) ++
    (if (missing_scenarios df p).length > 0 then
      [LogLine.mk Level.warning
        ("Following scenarios miss required variable " ++ p.1 ++ ": " ++
          String.intercalate ", " (missing_scenarios df p))]
    else [])
  else []

/-- Whether one configured variable passes the required-variable check. -/
def requiredVariableOk (df : List Row) (p : String × VariableSpec) : Bool :=
  !p.2.required || ((missing_models df p).isEmpty && (missing_scenarios df p).isEmpty)

/-- `validate_required_variables(df, variable_config)`: the loop visits
every configured variable (no short-circuit); the result is valid exactly
when no required variable misses a model or a scenario. -/
def validate_required_variables (df : List Row)
    (variable_config : List (String × VariableSpec)) : Bool × List LogLine :=
  (variable_config.all (requiredVariableOk df),
   LogLine.mk Level.debug "Start required variables validation" ::
     (variable_config.map (requiredVariableLog df)).flatten ++
     [LogLine.mk Level.debug "Finish required variables validation"])

/-- `set(df.scenario.unique()) - set(allowed_scenarios)`. -/
def unknown_scenarios (df : List Row) (allowed_scenarios : List String) : List String :=
  (scenariosOf df).filter (fun s => decide (s ∉ allowed_scenarios))

/-- `validate_allowed_scenarios(df, allowed_scenarios)`. -/
def validate_allowed_scenarios (df : List Row)
    (allowed_scenarios : List String) : Bool × List LogLine :=
  let us := unknown_scenarios df allowed_scenarios
  if us.length > 0 then
    (false, log_validation_errors "Scenario(s) not allowed" us Level.warning 100)
  else (true, [])

/-- `get_region_mapping(mappings_path, model)` over the modelled
filesystem `fs`.  Returns the log lines it emits itself together with
either the first parsed mapping (directory-listing order) whose filename
ends in `.yaml`/`.yml` and whose `model` field equals the requested model,
or the raised `IxmpServerWorkflowError`'s message. -/
def get_region_mapping (fs : String → Option (List (String × RegionMapping)))
    (mappings_path : String) (model : String) :
    List LogLine × Except String RegionMapping :=
  match fs mappings_path with
  | none =>
    let msg := "Directory containing region mappings does not exists: " ++ mappings_path
    ([LogLine.mk Level.error msg], Except.error msg)
  | some files =>
    match files.find? (fun f =>
        (f.1.endsWith ".yaml" || f.1.endsWith ".yml") && f.2.model == some model) with
    | some f => ([], Except.ok f.2)
    | none =>
      ([], Except.error ("No region mapping found for model \"" ++ model ++
        "\" in path \"" ++ mappings_path ++ "\""))

/-- The set of valid region names once a model's mapping resolved:
keys of `native_regions`, keys of `region_aggregation`, and `'World'`. -/
def valid_region_names (rm : RegionMapping) : List String :=
  rm.native_regions ++ rm.region_aggregation ++ ["World"]

/-- `set(df[df.model == model].region.unique()).difference(valid_region_names)`. -/
def invalid_region_names (df : List Row) (model : String) (rm : RegionMapping) : List String :=
  (((df.filter (fun r => r.model == model)).map Row.region).dedup).filter
    (fun rg => decide (rg ∉ valid_region_names rm))

/-- One iteration of the model loop of `validate_region_mappings`: resolve
the model's mapping; a raised `IxmpServerWorkflowError` is caught and
logged at error level (the loop then continues); on success the model's
regions are checked against the mapping. -/
def processModel (df : List Row) (fs : String → Option (List (String × RegionMapping)))
    (mappings_path : String) (model : String) : Bool × List LogLine :=
  match (get_region_mapping fs mappings_path model).2 with
  | Except.error err =>
    (false, (get_region_mapping fs mappings_path model).1 ++ [LogLine.mk Level.error err])
  | Except.ok rm =>
    if (invalid_region_names df model rm).length > 0 then
      (false, (get_region_mapping fs mappings_path model).1 ++
        [LogLine.mk Level.warning ("Model " ++ model ++ " contains unknown region names: " ++
          String.intercalate ", " (invalid_region_names df model rm))])
    else (true, (get_region_mapping fs mappings_path model).1)

/-- `validate_region_mappings(df, region_mapping_path)`: invalid when the
dataset has no models at all, and the model loop visits every distinct
model regardless of earlier failures. -/
def validate_region_mappings (df : List Row)
    (fs : String → Option (List (String × RegionMapping)))
    (mappings_path : String) : Bool × List LogLine :=
  let models := modelsOf df
  ((!models.isEmpty) && models.all (fun m => (processModel df fs mappings_path m).1),
   (if models.isEmpty then [LogLine.mk Level.warning "No models to process!"] else []) ++
     (models.map (fun m => (processModel df fs mappings_path m).2)).flatten)

/-- The files of a directory listing that carry a recognized config
extension and declare the requested model. -/
def matching_files (files : List (String × RegionMapping)) (model : String) :
    List (String × RegionMapping) :=
  files.filter (fun f =>
    (f.1.endsWith ".yaml" || f.1.endsWith ".yml") && f.2.model == some model)

lemma find?_eq_filter_head? {α : Type} (p : α → Bool) (l : List α) :
    l.find? p = (l.filter p).head? := by
  induction l with
  | nil => rfl
  | cons a l ih => simp only [List.find?, List.filter]; split <;> simp_all

lemma flatten_decomp {α : Type} {l : List α} {L : List (List α)} (h : l ∈ L) :
    ∃ s t, L.flatten = s ++ l ++ t := by
  obtain ⟨S, T, rfl⟩ := List.append_of_mem h
  exact ⟨S.flatten, T.flatten, by simp⟩

lemma unknown_variables_eq_nil (df : List Row) (vc : List (String × VariableSpec)) :
    unknown_variables df vc = [] ↔ ∀ r ∈ df, r.«variable» ∈ vc.map Prod.fst := by
  simp [unknown_variables, List.filter_eq_nil_iff, List.mem_dedup]

lemma mismatchedUnits_eq_nil (df : List Row) (p : String × VariableSpec) :
    mismatchedUnits df p = [] ↔ ∀ r ∈ df, r.«variable» = p.1 → r.unit = p.2.unit := by
  simp [mismatchedUnits, List.dedup_eq_nil, List.map_eq_nil_iff,
    List.filter_eq_nil_iff, not_and, bne_iff_ne]

lemma unknown_variable_units_eq_nil (df : List Row) (vc : List (String × VariableSpec)) :
    unknown_variable_units df vc = [] ↔ ∀ p ∈ vc, mismatchedUnits df p = [] := by
  simp [unknown_variable_units, List.map_eq_nil_iff, List.filter_eq_nil_iff,
    List.isEmpty_iff]

lemma missing_models_eq_nil (df : List Row) (p : String × VariableSpec) :
    missing_models df p = [] ↔
      ∀ m ∈ modelsOf df, ∃ r ∈ df, r.«variable» = p.1 ∧ r.model = m := by
  simp only [missing_models, List.filter_eq_nil_iff, decide_eq_true_eq, not_not,
    List.mem_map, List.mem_filter, beq_iff_eq]
  constructor
  · intro h m hm
    obtain ⟨r, ⟨hr, hv⟩, hmod⟩ := h m hm
    exact ⟨r, hr, hv, hmod⟩
  · intro h m hm
    obtain ⟨r, hr, hv, hmod⟩ := h m hm
    exact ⟨r, ⟨hr, hv⟩, hmod⟩

lemma missing_scenarios_eq_nil (df : List Row) (p : String × VariableSpec) :
    missing_scenarios df p = [] ↔
      ∀ s ∈ scenariosOf df, ∃ r ∈ df, r.«variable» = p.1 ∧ r.scenario = s := by
  simp only [missing_scenarios, List.filter_eq_nil_iff, decide_eq_true_eq, not_not,
    List.mem_map, List.mem_filter, beq_iff_eq]
  constructor
  · intro h s hs
    obtain ⟨r, ⟨hr, hv⟩, hsc⟩ := h s hs
    exact ⟨r, hr, hv, hsc⟩
  · intro h s hs
    obtain ⟨r, hr, hv, hsc⟩ := h s hs
    exact ⟨r, ⟨hr, hv⟩, hsc⟩

lemma invalid_region_names_eq_nil (df : List Row) (m : String) (rm : RegionMapping) :
    invalid_region_names df m rm = [] ↔
      ∀ r ∈ df, r.model = m → r.region ∈ valid_region_names rm := by
  simp only [invalid_region_names, List.filter_eq_nil_iff, decide_eq_true_eq, not_not,
    List.mem_dedup, List.mem_map, List.mem_filter, beq_iff_eq]
  constructor
  · intro h r hr hm
    exact h r.region ⟨r, ⟨hr, hm⟩, rfl⟩
  · intro h rg hrg
    obtain ⟨r, ⟨hr, hm⟩, hreg⟩ := hrg
    exact hreg ▸ h r hr hm

/-- Claim C7: on a dataset with zero rows, `validate_region_mappings`
returns `false` and emits exactly the `No models to process!` warning:
the empty input is a failure, not a vacuous pass. -/
theorem validate_region_mappings_empty
    (fs : String → Option (List (String × RegionMapping))) (mappings_path : String) :
    validate_region_mappings [] fs mappings_path =
      (false, [LogLine.mk Level.warning "No models to process!"]) := rfl

/-- Claim C8: `log_validation_errors` logs the heading line first, then
exactly `min (length errors) limit` errors, each as its own bulleted line
in list order, then one summary line stating how many errors were
suppressed exactly when `length errors > limit` (the count being
`length errors - limit`), and no summary line otherwise. -/
theorem log_validation_errors_structure (message : String) (errors : List String)
    (level : Level) (limit : Nat) :
    ∃ bullets summary,
      log_validation_errors message errors level limit =
        LogLine.mk level (message ++ ":") :: bullets ++ summary ∧
      bullets = (errors.take limit).map (fun e => LogLine.mk level ("- " ++ e)) ∧
      bullets.length = min errors.length limit ∧
      (errors.length > limit →
        summary = [LogLine.mk level
          ("and " ++ toString (errors.length - limit) ++ " more...")]) ∧
      (errors.length ≤ limit → summary = []) := by
  refine ⟨(errors.take limit).map (fun e => LogLine.mk level ("- " ++ e)),
    if errors.length > limit then
      [LogLine.mk level ("and " ++ toString (errors.length - limit) ++ " more...")]
    else [], rfl, rfl, ?_, ?_, ?_⟩
  · simp [List.length_take, Nat.min_comm]
  · intro h; rw [if_pos h]
  · intro h; rw [if_neg (by omega)]

/-- Claim C10: on a dataset with zero rows, `validate_required_variables`
returns `true` for every variable configuration (required variables
included) and logs nothing beyond its debug lines, while
`validate_region_mappings` fails on the same empty input. -/
theorem validate_required_variables_empty (vc : List (String × VariableSpec))
    (fs : String → Option (List (String × RegionMapping))) (mappings_path : String) :
    (validate_required_variables [] vc).1 = true ∧
    (∀ line ∈ (validate_required_variables [] vc).2, line.level = Level.debug) ∧
    (validate_region_mappings [] fs mappings_path).1 = false := by
  have hok : ∀ p : String × VariableSpec, requiredVariableOk [] p = true := by
    intro p
    simp [requiredVariableOk, missing_models, missing_scenarios, modelsOf, scenariosOf]
  have hlog : ∀ p : String × VariableSpec, requiredVariableLog [] p = [] := by
    intro p
    simp [requiredVariableLog, missing_models, missing_scenarios, modelsOf, scenariosOf]
  refine ⟨?_, ?_, rfl⟩
  · exact List.all_eq_true.mpr fun p _ => hok p
  · intro line hline
    have hfl : (vc.map (requiredVariableLog [])).flatten = [] := by
      rw [List.flatten_eq_nil_iff]
      intro l hl
      obtain ⟨p, _, hp⟩ := List.mem_map.mp hl
      rw [← hp, hlog p]
    simp only [validate_required_variables] at hline
    rw [hfl] at hline
    have hcases : line = LogLine.mk Level.debug "Start required variables validation" ∨
        line = LogLine.mk Level.debug "Finish required variables validation" := by
      simpa using hline
    rcases hcases with h | h <;> rw [h]

/-- Claim C1: `validate_variables_and_units` returns `true` exactly when
every distinct variable occurring in the dataset is a key of the
configuration and every row's unit equals the unit configured for the
row's variable. -/
theorem validate_variables_and_units_correct (df : List Row)
    (variable_config : List (String × VariableSpec)) :
    (validate_variables_and_units df variable_config).1 = true ↔
      ((∀ r ∈ df, r.«variable» ∈ variable_config.map Prod.fst) ∧
       (∀ r ∈ df, ∀ p ∈ variable_config, r.«variable» = p.1 → r.unit = p.2.unit)) := by
  simp only [validate_variables_and_units, Bool.and_eq_true, List.isEmpty_iff]
  rw [unknown_variables_eq_nil, unknown_variable_units_eq_nil]
  constructor
  · rintro ⟨h1, h2⟩
    refine ⟨h1, fun r hr p hp hv => ?_⟩
    exact (mismatchedUnits_eq_nil df p).mp (h2 p hp) r hr hv
  · rintro ⟨h1, h2⟩
    refine ⟨h1, fun p hp => ?_⟩
    exact (mismatchedUnits_eq_nil df p).mpr fun r hr hv => h2 r hr p hp hv

/-- Claim C4, counterexample: on the one-row dataset whose scenario is
`valid_scenario` and the empty allow-list, the claim as stated is false:
the log does contain the bulleted line `- valid_scenario`, so the
conjunction demanding its absence fails. -/
theorem validate_allowed_scenarios_claim_false :
    ¬ ((validate_allowed_scenarios [Row.mk "m" "valid_scenario" "r" "v" "u"] []).1 = false ∧
       LogLine.mk Level.warning "Scenario(s) not allowed:" ∈
         (validate_allowed_scenarios [Row.mk "m" "valid_scenario" "r" "v" "u"] []).2 ∧
       LogLine.mk Level.warning "- valid_scenario" ∉
         (validate_allowed_scenarios [Row.mk "m" "valid_scenario" "r" "v" "u"] []).2) := by
  decide

/-- Claim C4, amended: on a dataset containing the scenario
`valid_scenario` and the empty allow-list, `validate_allowed_scenarios`
returns `false`, the log contains the `Scenario(s) not allowed` heading,
and the log DOES contain the bulleted line `- valid_scenario` (the
scenario is not on the allow-list, so it is reported; the bound on the
number of distinct scenarios keeps the bullet below the reporter's
truncation limit of 100). -/
theorem validate_allowed_scenarios_empty_allowlist (df : List Row)
    (h1 : "valid_scenario" ∈ df.map Row.scenario)
    (h2 : (scenariosOf df).length ≤ 100) :
    (validate_allowed_scenarios df []).1 = false ∧
    LogLine.mk Level.warning "Scenario(s) not allowed:" ∈ (validate_allowed_scenarios df []).2 ∧
    LogLine.mk Level.warning "- valid_scenario" ∈ (validate_allowed_scenarios df []).2 := by
  have hus : unknown_scenarios df [] = scenariosOf df := by
    simp [unknown_scenarios]
  have hmem : "valid_scenario" ∈ unknown_scenarios df [] := by
    rw [hus]; exact List.mem_dedup.mpr h1
  have hlen : (unknown_scenarios df []).length > 0 :=
    List.length_pos.mpr (List.ne_nil_of_mem hmem)
  have htake : (unknown_scenarios df []).take 100 = unknown_scenarios df [] :=
    List.take_of_length_le (by rw [hus]; exact h2)
  have hres : (validate_allowed_scenarios df []).1 = false := by
    simp only [validate_allowed_scenarios, if_pos hlen]
  have hlog : (validate_allowed_scenarios df []).2 =
      log_validation_errors "Scenario(s) not allowed" (unknown_scenarios df [])
        Level.warning 100 := by
    simp only [validate_allowed_scenarios, if_pos hlen]
  have hcolon : ("Scenario(s) not allowed" ++ ":" : String) = "Scenario(s) not allowed:" := rfl
  refine ⟨hres, ?_, ?_⟩
  · rw [hlog]
    unfold log_validation_errors
    rw [hcolon]
    exact List.mem_cons_self _ _
  · have hb : LogLine.mk Level.warning "- valid_scenario" ∈
        ((unknown_scenarios df []).take 100).map
          (fun e => LogLine.mk Level.warning ("- " ++ e)) := by
      rw [htake]
      exact List.mem_map.mpr ⟨"valid_scenario", hmem, rfl⟩
    rw [hlog]
    unfold log_validation_errors
    exact List.mem_cons_of_mem _ (List.mem_append_left _ hb)

/-- Witness for the amended claim C4, at the one-row dataset whose
scenario is `valid_scenario`. -/
theorem validate_allowed_scenarios_empty_allowlist_witness :
    (validate_allowed_scenarios [Row.mk "m" "valid_scenario" "r" "v" "u"] []).1 = false ∧
    LogLine.mk Level.warning "Scenario(s) not allowed:" ∈
      (validate_allowed_scenarios [Row.mk "m" "valid_scenario" "r" "v" "u"] []).2 ∧
    LogLine.mk Level.warning "- valid_scenario" ∈
      (validate_allowed_scenarios [Row.mk "m" "valid_scenario" "r" "v" "u"] []).2 :=
  validate_allowed_scenarios_empty_allowlist
    [Row.mk "m" "valid_scenario" "r" "v" "u"] (by decide) (by decide)

/-- Claim C9, counterexample: on a one-row dataset whose unit differs
from the configured one, the reported heading line is
`Unknown unit(s) for variable(s)::` (the call site's message already ends
in a colon and the reporter appends another), so the single-colon heading
the claim demands never appears in the log. -/
theorem unit_batch_heading_claim_false :
    LogLine.mk Level.warning "Unknown unit(s) for variable(s):" ∉
      (validate_variables_and_units [Row.mk "m" "s" "r" "v" "wrong"]
        [("v", VariableSpec.mk "u" false)]).2 ∧
    LogLine.mk Level.warning "Unknown unit(s) for variable(s)::" ∈
      (validate_variables_and_units [Row.mk "m" "s" "r" "v" "wrong"]
        [("v", VariableSpec.mk "u" false)]).2 := by
  decide

/-- Claim C9, amended: whenever `validate_variables_and_units` finds at
least one unit mismatch, it reports all of them as a single batch through
the reporter, whose heading line is the call-site message
`Unknown unit(s) for variable(s):` plus the reporter's trailing colon —
the line `Unknown unit(s) for variable(s)::` — with one bullet per
accumulated `<variable>: <comma-joined mismatched units>` string, up to
the reporter's truncation limit of 100. -/
theorem validate_variables_and_units_unit_batch (df : List Row)
    (variable_config : List (String × VariableSpec))
    (h : unknown_variable_units df variable_config ≠ []) :
    (validate_variables_and_units df variable_config).2 =
      LogLine.mk Level.debug "Start variables/units validation" ::
        (if (unknown_variables df variable_config).length > 0 then
          log_validation_errors "Unknown variable(s)"
            (unknown_variables df variable_config) Level.warning 100
        else []) ++
        log_validation_errors "Unknown unit(s) for variable(s):"
          (unknown_variable_units df variable_config) Level.warning 100 ++
        [LogLine.mk Level.debug "Finish variables/units validation"] ∧
    LogLine.mk Level.warning "Unknown unit(s) for variable(s)::" ∈
      (validate_variables_and_units df variable_config).2 ∧
    ∀ u ∈ (unknown_variable_units df variable_config).take 100,
      LogLine.mk Level.warning ("- " ++ u) ∈
        (validate_variables_and_units df variable_config).2 := by
  have hlen : 0 < (unknown_variable_units df variable_config).length :=
    List.length_pos.mpr h
  have hlog : (validate_variables_and_units df variable_config).2 =
      LogLine.mk Level.debug "Start variables/units validation" ::
        (if (unknown_variables df variable_config).length > 0 then
          log_validation_errors "Unknown variable(s)"
            (unknown_variables df variable_config) Level.warning 100
        else []) ++
        log_validation_errors "Unknown unit(s) for variable(s):"
          (unknown_variable_units df variable_config) Level.warning 100 ++
        [LogLine.mk Level.debug "Finish variables/units validation"] := by
    simp only [validate_variables_and_units]
    rw [if_pos hlen]
  refine ⟨hlog, ?_, ?_⟩
  · rw [hlog]
    have hhead : LogLine.mk Level.warning "Unknown unit(s) for variable(s)::" ∈
        log_validation_errors "Unknown unit(s) for variable(s):"
          (unknown_variable_units df variable_config) Level.warning 100 := by
      unfold log_validation_errors
      have hc : ("Unknown unit(s) for variable(s):" ++ ":" : String) =
          "Unknown unit(s) for variable(s)::" := rfl
      rw [hc]
      exact List.mem_cons_self _ _
    exact List.mem_cons_of_mem _
      (List.mem_append_left _ (List.mem_append_right _ hhead))
  · intro u hu
    rw [hlog]
    have hb : LogLine.mk Level.warning ("- " ++ u) ∈
        ((unknown_variable_units df variable_config).take 100).map
          (fun e => LogLine.mk Level.warning ("- " ++ e)) :=
      List.mem_map.mpr ⟨u, hu, rfl⟩
    have hrep : LogLine.mk Level.warning ("- " ++ u) ∈
        log_validation_errors "Unknown unit(s) for variable(s):"
          (unknown_variable_units df variable_config) Level.warning 100 := by
      unfold log_validation_errors
      exact List.mem_cons_of_mem _ (List.mem_append_left _ hb)
    exact List.mem_cons_of_mem _
      (List.mem_append_left _ (List.mem_append_right _ hrep))

/-- Witness for the amended claim C9, at a one-row dataset with a
mismatched unit for the configured variable `v`. -/
theorem validate_variables_and_units_unit_batch_witness :
    unknown_variable_units [Row.mk "m" "s" "r" "v" "wrong"]
      [("v", VariableSpec.mk "u" false)] ≠ [] ∧
    LogLine.mk Level.warning "Unknown unit(s) for variable(s)::" ∈
      (validate_variables_and_units [Row.mk "m" "s" "r" "v" "wrong"]
        [("v", VariableSpec.mk "u" false)]).2 :=
  ⟨by decide,
   (validate_variables_and_units_unit_batch [Row.mk "m" "s" "r" "v" "wrong"]
     [("v", VariableSpec.mk "u" false)] (by decide)).2.1⟩

/-- Claim C3: `validate_required_variables` returns `true` exactly when
every variable marked required has, for every distinct model of the
dataset, at least one row, and for every distinct scenario, at least one
row; a missing model set produces the single combined
`Following models miss required variable <variable>: <comma-joined models>`
warning; and the loop visits every configured variable (its log is the
concatenation of every variable's contribution — no short-circuit). -/
theorem validate_required_variables_correct (df : List Row)
    (variable_config : List (String × VariableSpec)) :
    ((validate_required_variables df variable_config).1 = true ↔
      ∀ p ∈ variable_config, p.2.required = true →
        (∀ m ∈ modelsOf df, ∃ r ∈ df, r.«variable» = p.1 ∧ r.model = m) ∧
        (∀ s ∈ scenariosOf df, ∃ r ∈ df, r.«variable» = p.1 ∧ r.scenario = s)) ∧
    (∀ p ∈ variable_config, p.2.required = true → missing_models df p ≠ [] →
      LogLine.mk Level.warning
        ("Following models miss required variable " ++ p.1 ++ ": " ++
          String.intercalate ", " (missing_models df p)) ∈
        (validate_required_variables df variable_config).2) ∧
    ((validate_required_variables df variable_config).2 =
      LogLine.mk Level.debug "Start required variables validation" ::
        (variable_config.map (requiredVariableLog df)).flatten ++
        [LogLine.mk Level.debug "Finish required variables validation"]) := by
  refine ⟨?_, ?_, rfl⟩
  · simp only [validate_required_variables, List.all_eq_true]
    constructor
    · intro h p hp hreq
      have hok := h p hp
      simp only [requiredVariableOk, hreq, Bool.not_true, Bool.false_or,
        Bool.and_eq_true, List.isEmpty_iff] at hok
      exact ⟨(missing_models_eq_nil df p).mp hok.1,
        (missing_scenarios_eq_nil df p).mp hok.2⟩
    · intro h p hp
      simp only [requiredVariableOk, Bool.or_eq_true, Bool.not_eq_true',
        Bool.and_eq_true, List.isEmpty_iff]
      by_cases hreq : p.2.required = true
      · exact Or.inr ⟨(missing_models_eq_nil df p).mpr (h p hp hreq).1,
          (missing_scenarios_eq_nil df p).mpr (h p hp hreq).2⟩
      · exact Or.inl (Bool.not_eq_true _ ▸ hreq)
  · intro p hp hreq hmm
    have hline : LogLine.mk Level.warning
        ("Following models miss required variable " ++ p.1 ++ ": " ++
          String.intercalate ", " (missing_models df p)) ∈ requiredVariableLog df p := by
      unfold requiredVariableLog
      rw [if_pos hreq]
      have hlen : (missing_models df p).length > 0 :=
        List.length_pos.mpr hmm
      rw [if_pos hlen]
      exact List.mem_append_left _ (List.mem_cons_self _ _)
    have hfl : requiredVariableLog df p ∈ variable_config.map (requiredVariableLog df) :=
      List.mem_map_of_mem _ hp
    exact List.mem_cons_of_mem _
      (List.mem_append_left _ (List.mem_flatten.mpr ⟨_, hfl, hline⟩))

lemma processModel_true_iff (df : List Row)
    (fs : String → Option (List (String × RegionMapping)))
    (mappings_path m : String) :
    (processModel df fs mappings_path m).1 = true ↔
      ∃ rm, (get_region_mapping fs mappings_path m).2 = Except.ok rm ∧
        ∀ r ∈ df, r.model = m → r.region ∈ valid_region_names rm := by
  cases hg : (get_region_mapping fs mappings_path m).2 with
  | error e =>
    simp only [processModel, hg]
    constructor
    · intro h; cases h
    · rintro ⟨rm, hrm, -⟩; cases hrm
  | ok rm =>
    simp only [processModel, hg]
    by_cases hc : (invalid_region_names df m rm).length > 0
    · rw [if_pos hc]
      constructor
      · intro h; cases h
      · rintro ⟨rm2, hrm2, hall⟩
        obtain rfl : rm = rm2 := by injection hrm2
        have hnil : invalid_region_names df m rm = [] :=
          (invalid_region_names_eq_nil df m rm).mpr hall
        rw [hnil] at hc
        simp at hc
    · rw [if_neg hc]
      have hnil : invalid_region_names df m rm = [] := by
        cases hn : invalid_region_names df m rm with
        | nil => rfl
        | cons a l => rw [hn] at hc; exact absurd (by simp) hc
      exact iff_of_true rfl
        ⟨rm, rfl, (invalid_region_names_eq_nil df m rm).mp hnil⟩

/-- Claim C2: `validate_region_mappings` returns `true` exactly when the
dataset has at least one distinct model and, for every distinct model,
its region mapping resolves and every region used by that model's rows is
a key of the mapping's `native_regions`, a key of its
`region_aggregation`, or the string `World`. -/
theorem validate_region_mappings_correct (df : List Row)
    (fs : String → Option (List (String × RegionMapping))) (mappings_path : String) :
    (validate_region_mappings df fs mappings_path).1 = true ↔
      modelsOf df ≠ [] ∧
      ∀ m ∈ modelsOf df, ∃ rm, (get_region_mapping fs mappings_path m).2 = Except.ok rm ∧
        ∀ r ∈ df, r.model = m →
          (r.region ∈ rm.native_regions ∨ r.region ∈ rm.region_aggregation ∨
            r.region = "World") := by
  simp only [validate_region_mappings, Bool.and_eq_true, Bool.not_eq_true',
    List.isEmpty_eq_false_iff_exists_mem, List.all_eq_true]
  constructor
  · rintro ⟨⟨x, hx⟩, hall⟩
    refine ⟨List.ne_nil_of_mem hx, fun m hm => ?_⟩
    obtain ⟨rm, hrm, hreg⟩ := (processModel_true_iff df fs mappings_path m).mp (hall m hm)
    refine ⟨rm, hrm, fun r hr hrm2 => ?_⟩
    have := hreg r hr hrm2
    simpa [valid_region_names] using this
  · rintro ⟨hne, hall⟩
    obtain ⟨x, hx⟩ := List.exists_mem_of_ne_nil _ hne
    refine ⟨⟨x, hx⟩, fun m hm => ?_⟩
    obtain ⟨rm, hrm, hreg⟩ := hall m hm
    refine (processModel_true_iff df fs mappings_path m).mpr ⟨rm, hrm, fun r hr hr2 => ?_⟩
    simpa [valid_region_names] using hreg r hr hr2

/-- Claim C5: when resolving one model's region mapping fails, the error
is caught and logged (its message appears in the returned log at error
level), the overall result is `false`, and the log still contains the
full per-model contribution of every distinct model of the dataset — the
failure never aborts the loop. -/
theorem validate_region_mappings_error_handling (df : List Row)
    (fs : String → Option (List (String × RegionMapping)))
    (mappings_path m err : String)
    (hm : m ∈ modelsOf df)
    (herr : (get_region_mapping fs mappings_path m).2 = Except.error err) :
    (validate_region_mappings df fs mappings_path).1 = false ∧
    LogLine.mk Level.error err ∈ (validate_region_mappings df fs mappings_path).2 ∧
    ∀ m2 ∈ modelsOf df, ∃ s t,
      (validate_region_mappings df fs mappings_path).2 =
        s ++ (processModel df fs mappings_path m2).2 ++ t := by
  have hpm1 : (processModel df fs mappings_path m).1 = false := by
    simp only [processModel, herr]
  have hpm2 : (processModel df fs mappings_path m).2 =
      (get_region_mapping fs mappings_path m).1 ++ [LogLine.mk Level.error err] := by
    simp only [processModel, herr]
  refine ⟨?_, ?_, ?_⟩
  · simp only [validate_region_mappings, Bool.and_eq_false_iff]
    right
    rw [← Bool.not_eq_true, List.all_eq_true]
    intro hall
    rw [hall m hm] at hpm1
    cases hpm1
  · have hin : LogLine.mk Level.error err ∈ (processModel df fs mappings_path m).2 := by
      rw [hpm2]
      exact List.mem_append_right _ (List.mem_cons_self _ _)
    have hfl : LogLine.mk Level.error err ∈
        ((modelsOf df).map (fun m2 => (processModel df fs mappings_path m2).2)).flatten :=
      List.mem_flatten.mpr ⟨_, List.mem_map_of_mem _ hm, hin⟩
    exact List.mem_append_right _ hfl
  · intro m2 hm2
    have hmem : (processModel df fs mappings_path m2).2 ∈
        (modelsOf df).map (fun m3 => (processModel df fs mappings_path m3).2) :=
      List.mem_map_of_mem _ hm2
    obtain ⟨s, t, hst⟩ := flatten_decomp hmem
    refine ⟨(if (modelsOf df).isEmpty then
      [LogLine.mk Level.warning "No models to process!"] else []) ++ s, t, ?_⟩
    simp only [validate_region_mappings, hst]
    simp [List.append_assoc]

/-- Witness for claim C5: a one-row dataset and a filesystem whose
directory listing is empty, so the model's mapping resolution fails with
the not-found error. -/
theorem validate_region_mappings_error_handling_witness :
    "m1" ∈ modelsOf [Row.mk "m1" "s" "r" "v" "u"] ∧
    (validate_region_mappings [Row.mk "m1" "s" "r" "v" "u"]
      (fun _ => some []) "p").1 = false ∧
    LogLine.mk Level.error
        "No region mapping found for model \"m1\" in path \"p\"" ∈
      (validate_region_mappings [Row.mk "m1" "s" "r" "v" "u"]
        (fun _ => some []) "p").2 :=
  ⟨by decide,
   (validate_region_mappings_error_handling [Row.mk "m1" "s" "r" "v" "u"]
     (fun _ => some []) "p" "m1"
     "No region mapping found for model \"m1\" in path \"p\""
     (by decide) rfl).1,
   (validate_region_mappings_error_handling [Row.mk "m1" "s" "r" "v" "u"]
     (fun _ => some []) "p" "m1"
     "No region mapping found for model \"m1\" in path \"p\""
     (by decide) rfl).2.1⟩

/-- Claim C6: `get_region_mapping` fails with the directory error when
the path is not an existing directory; otherwise it fails with the
not-found error — whose message names both the model and the searched
path — exactly when no file of the listing with a `.yaml`/`.yml`
extension parses to a mapping whose `model` field equals the requested
model, and when at least one such file exists it returns the first match
in directory-listing order. -/
theorem get_region_mapping_spec
    (fs : String → Option (List (String × RegionMapping)))
    (mappings_path model : String) :
    (fs mappings_path = none →
      (get_region_mapping fs mappings_path model).2 =
        Except.error
          ("Directory containing region mappings does not exists: " ++ mappings_path)) ∧
    (∀ files, fs mappings_path = some files →
      ((matching_files files model = [] ↔
        (get_region_mapping fs mappings_path model).2 =
          Except.error ("No region mapping found for model \"" ++ model ++
            "\" in path \"" ++ mappings_path ++ "\"")) ∧
       (∀ f, (matching_files files model).head? = some f →
         (get_region_mapping fs mappings_path model).2 = Except.ok f.2))) ∧
    (∃ pre mid post,
      ("No region mapping found for model \"" ++ model ++
        "\" in path \"" ++ mappings_path ++ "\"" : String) =
        pre ++ model ++ mid ++ mappings_path ++ post) := by
  refine ⟨?_, ?_, ?_⟩
  · intro hnone
    simp only [get_region_mapping, hnone]
  · intro files hsome
    have hfind : files.find? (fun f =>
        (f.1.endsWith ".yaml" || f.1.endsWith ".yml") && f.2.model == some model) =
        (matching_files files model).head? :=
      find?_eq_filter_head? _ _
    constructor
    · constructor
      · intro hnil
        have : (matching_files files model).head? = none := by rw [hnil]; rfl
        simp only [get_region_mapping, hsome, hfind, this]
      · intro herr
        cases hh : (matching_files files model).head? with
        | none => exact List.head?_eq_none_iff.mp hh
        | some f =>
          simp only [get_region_mapping, hsome, hfind, hh] at herr
          cases herr
    · intro f hf
      simp only [get_region_mapping, hsome, hfind, hf]
  · exact ⟨"No region mapping found for model \"", "\" in path \"", "\"", by
      simp [String.append_assoc]⟩
